import Mathlib

/-!
Verification of the SquirrelDB Rust client SDK (sqrldb/sdk-rust) against its
natural-language specification.  The Rust sources under `src/` are shallowly
embedded below: machine bytes are `Nat` (with explicit masking where the Rust
code masks), `Result<T, E>` becomes `Except`/`Option`, and the Rust structs and
enums become Lean structures and inductives with the same field and variant
names (adjusted to Lean naming where the Rust name is a Lean keyword).
-/

namespace SqrlDB

/-! ## protocol.rs: constants -/

/-- Protocol magic bytes, `b"SQRL"` (`protocol.rs` line 7). -/
def MAGIC : List Nat := [0x53, 0x51, 0x52, 0x4C]

/-- Current protocol version (`protocol.rs` line 10). -/
def PROTOCOL_VERSION : Nat := 0x01

/-- Maximum message size, 16 MiB (`protocol.rs` line 13). -/
def MAX_MESSAGE_SIZE : Nat := 16 * 1024 * 1024

/-! ## protocol.rs: HandshakeStatus -/

/-- Handshake status codes (`protocol.rs` lines 18-22). -/
inductive HandshakeStatus where
  | success
  | versionMismatch
  | authFailed
  deriving DecidableEq

/-- Embeds `impl TryFrom<u8> for HandshakeStatus` (`protocol.rs` lines 24-34):
`Err(())` is modelled as `none`. -/
def HandshakeStatus.tryFrom (v : Nat) : Option HandshakeStatus :=
  match v with
  | 0x00 => some .success
  | 0x01 => some .versionMismatch
  | 0x02 => some .authFailed
  | _ => none

/-! ## protocol.rs: MessageType and Encoding -/

/-- Message types (`protocol.rs` lines 39-43). -/
inductive MessageType where
  | request
  | response
  | notification
  deriving DecidableEq

/-- Embeds `impl TryFrom<u8> for MessageType` (`protocol.rs` lines 45-55). -/
def MessageType.tryFrom (v : Nat) : Option MessageType :=
  match v with
  | 0x01 => some .request
  | 0x02 => some .response
  | 0x03 => some .notification
  | _ => none

/-- Encoding formats (`protocol.rs` lines 60-64). -/
inductive Encoding where
  | messagePack
  | json
  deriving DecidableEq

/-- Embeds `impl TryFrom<u8> for Encoding` (`protocol.rs` lines 66-75). -/
def Encoding.tryFrom (v : Nat) : Option Encoding :=
  match v with
  | 0x01 => some .messagePack
  | 0x02 => some .json
  | _ => none

/-! ## protocol.rs: ProtocolFlags -/

/-- Protocol flags in the handshake (`protocol.rs` lines 79-82). -/
structure ProtocolFlags where
  messagepack : Bool
  json_fallback : Bool
  deriving DecidableEq

/-- Embeds `impl From<u8> for ProtocolFlags` (`protocol.rs` lines 84-91):
bit0 is `messagepack`, bit1 is `json_fallback`; the conversion is total. -/
def ProtocolFlags.fromByte (byte : Nat) : ProtocolFlags :=
  { messagepack := byte &&& 0x01 != 0
    json_fallback := byte &&& 0x02 != 0 }

/-- Embeds `impl From<ProtocolFlags> for u8` (`protocol.rs` lines 93-104):
starting from 0, OR in 0x01 when `messagepack` and 0x02 when `json_fallback`. -/
def ProtocolFlags.toByte (flags : ProtocolFlags) : Nat :=
  let byte : Nat := 0
  let byte := if flags.messagepack then byte ||| 0x01 else byte
  let byte := if flags.json_fallback then byte ||| 0x02 else byte
  byte

/-! ## Structured values (serde_json::Value) -/

/-- Shallow embedding of `serde_json::Value`: an arbitrary structured JSON
value.  Numbers are modelled as `Float`, mirroring the `f64` payloads the
query builder feeds into them; objects are ordered association lists. -/
inductive Json where
  | null
  | bool (b : Bool)
  | num (n : Float)
  | str (s : String)
  | arr (xs : List Json)
  | obj (fields : List (String × Json))

/-- Embeds `uuid::Uuid`, a 128-bit identifier; the claims never inspect its
bits, so it is a wrapped `Nat`. -/
structure Uuid where
  val : Nat
  deriving DecidableEq

/-! ## protocol.rs: messages -/

/-- Client-to-server message types (`protocol.rs` lines 109-143).  Every
variant carries an `id : String` as its first field, exactly as in the Rust
enum. -/
inductive ClientMessage where
  | query (id : String) (queryText : String)
  | subscribe (id : String) (queryText : String)
  | unsubscribe (id : String)
  | insert (id : String) (collection : String) (data : Json)
  | update (id : String) (collection : String) (document_id : Uuid) (data : Json)
  | delete (id : String) (collection : String) (document_id : Uuid)
  | listCollections (id : String)
  | ping (id : String)

/-- Projects the `id` field out of any `ClientMessage`; total because every
variant of the Rust enum has one. -/
def ClientMessage.id : ClientMessage → String
  | .query i _ => i
  | .subscribe i _ => i
  | .unsubscribe i => i
  | .insert i _ _ => i
  | .update i _ _ _ => i
  | .delete i _ _ => i
  | .listCollections i => i
  | .ping i => i

/-- Document structure (`protocol.rs` lines 169-175). -/
structure Document where
  id : Uuid
  collection : String
  data : Json
  created_at : String
  updated_at : String

/-- Change event types for subscriptions (`protocol.rs` lines 160-165).
Note the asymmetry mirrored from the Rust enum: `update`'s `old` is a plain
`serde_json::Value`, while `initial`/`insert`/`delete` and `update`'s `new`
carry full `Document`s. -/
inductive ChangeEvent where
  | initial (document : Document)
  | insert (new : Document)
  | update (old : Json) (new : Document)
  | delete (old : Document)

/-- The `old` field of an `update` change event, when the event is an
update.  Its type is `Json`: the pre-image is a plain structured value, not
a `Document`. -/
def ChangeEvent.updateOld : ChangeEvent → Option Json
  | .update o _ => some o
  | _ => none

/-- The `new` field of an `update` change event; a full `Document`. -/
def ChangeEvent.updateNew : ChangeEvent → Option Document
  | .update _ n => some n
  | _ => none

/-- The `new` field of an `insert` change event; a full `Document`. -/
def ChangeEvent.insertNew : ChangeEvent → Option Document
  | .insert n => some n
  | _ => none

/-- The `old` field of a `delete` change event; a full `Document`. -/
def ChangeEvent.deleteOld : ChangeEvent → Option Document
  | .delete o => some o
  | _ => none

/-- Server-to-client message types (`protocol.rs` lines 148-155). -/
inductive ServerMessage where
  | result (id : String) (data : Json)
  | change (id : String) (change : ChangeEvent)
  | subscribed (id : String)
  | unsubscribed (id : String)
  | error (id : String) (error : String)
  | pong (id : String)

/-- Projects the `id` field out of any `ServerMessage`; total because every
variant of the Rust enum has one. -/
def ServerMessage.id : ServerMessage → String
  | .result i _ => i
  | .change i _ => i
  | .subscribed i => i
  | .unsubscribed i => i
  | .error i _ => i
  | .pong i => i

/-- Where the reader loop routes an incoming message: either it resolves the
pending request registered under a request id, or it is enqueued to the
subscription registered under a subscription id. -/
inductive DispatchTarget where
  | pending (id : String)
  | subscription (id : String)
  deriving DecidableEq

/-- Modelled from the spec: the reader loop lives in `client.rs`, which is
absent from `src/`.  Spec section 4.3: "every incoming `ServerMessage` other
than `Change` resolves the PendingRequest whose id matches"; section 4.4:
"incoming `Change` messages are routed by the Reader Loop directly to the
matching Subscription's queue", keyed by the subscription id the message
carries in its `id` field. -/
def dispatchTarget : ServerMessage → DispatchTarget
  | .change i _ => .subscription i
  | m => .pending m.id

/-! ## error.rs: the public error type -/

/-- Embeds `std::io::Error` as carried by `Error::Io`; only its message text
is observable through the SDK. -/
structure IoError where
  message : String

/-- The SDK's public error enum (`error.rs` lines 5-33).  Its variants, in
source order: `Connection`, `Handshake`, `VersionMismatch`, `AuthFailed`,
`Io`, `Serialization`, `Server`, `Timeout`, `ChannelClosed`.  There is no
`Protocol` variant in the source. -/
inductive Error where
  | connection (msg : String)
  | handshake (msg : String)
  | versionMismatch (server client : Nat)
  | authFailed
  | io (e : IoError)
  | serialization (msg : String)
  | server (msg : String)
  | timeout
  | channelClosed

/-- The Rust variant name of an `Error` value, exactly as spelled in
`error.rs`. -/
def Error.kindName : Error → String
  | .connection _ => "Connection"
  | .handshake _ => "Handshake"
  | .versionMismatch _ _ => "VersionMismatch"
  | .authFailed => "AuthFailed"
  | .io _ => "Io"
  | .serialization _ => "Serialization"
  | .server _ => "Server"
  | .timeout => "Timeout"
  | .channelClosed => "ChannelClosed"

/-- The variant names of the public error type, in source order. -/
def errorKindNames : List String :=
  ["Connection", "Handshake", "VersionMismatch", "AuthFailed", "Io",
   "Serialization", "Server", "Timeout", "ChannelClosed"]

/-! ## Frame codec -/

/-- Error kinds the frame codec can produce, per spec section 4.2: a
`Protocol` error for a hostile or corrupted declared length, a `Connection`
error for a stream truncated mid-frame. -/
inductive FrameError where
  | protocol (msg : String)
  | connection (msg : String)
  deriving DecidableEq

/-- Modelled from the spec: the frame codec lives in `client.rs`, which is
absent from `src/`.  Spec sections 4.2 and 6: a frame is a 4-byte unsigned
big-endian byte count followed by that many payload bytes; a declared length
exceeding `MAX_MESSAGE_SIZE` fails with a Protocol error before the payload
is read; a truncated stream fails with a Connection error.  Decoding one
frame from a byte stream returns the payload and the remaining bytes. -/
def readFrame (input : List Nat) : Except FrameError (List Nat × List Nat) :=
  match input with
  | b0 :: b1 :: b2 :: b3 :: rest =>
    let len := ((b0 * 256 + b1) * 256 + b2) * 256 + b3
    if MAX_MESSAGE_SIZE < len then
      .error (.protocol "frame too large")
    else if rest.length < len then
      .error (.connection "truncated stream")
    else
      .ok (rest.take len, rest.drop len)
  | _ => .error (.connection "truncated stream")

/-! ## query.rs: JSON serialization helpers used by Filter::compile -/

/-- The left-brace character, as a string. -/
def lbrace : String := String.singleton (Char.ofNat 123)

/-- The right-brace character, as a string. -/
def rbrace : String := String.singleton (Char.ofNat 125)

/-- Escapes one character the way serde_json escapes it inside a JSON string
literal. -/
def escapeJsonChar (c : Char) : String :=
  if c = '"' then "\\\""
  else if c = '\\' then "\\\\"
  else if c = Char.ofNat 8 then "\\b"
  else if c = Char.ofNat 12 then "\\f"
  else if c = '\n' then "\\n"
  else if c = Char.ofNat 13 then "\\r"
  else if c = '\t' then "\\t"
  else if c.toNat < 32 then
    "\\u00" ++ String.singleton (Nat.digitChar (c.toNat / 16))
      ++ String.singleton (Nat.digitChar (c.toNat % 16))
  else String.singleton c

/-- Escapes every character of a string for inclusion in a JSON string
literal. -/
def escapeJsonString (s : String) : String :=
  s.foldl (fun acc c => acc ++ escapeJsonChar c) ""

/-- Rust's `Display` for an `f64`: integral values print with no fractional
part (`21.0` prints as `21`); other values are approximated by Lean's `Float`
printer.  No claim evaluates this on a non-integral value. -/
def f64Display (x : Float) : String :=
  if x == Float.ofNat x.toUInt64.toNat then
    toString x.toUInt64.toNat
  else if (-x) == Float.ofNat (-x).toUInt64.toNat then
    "-" ++ toString (-x).toUInt64.toNat
  else
    toString x

/-- Serde's compact printer for an `f64` stored in a `serde_json::Value`:
integral values keep a `.0` suffix (`21.0` prints as `21.0`); other values
are approximated by Lean's `Float` printer. -/
def serdeNumDisplay (x : Float) : String :=
  if x == Float.ofNat x.toUInt64.toNat then
    toString x.toUInt64.toNat ++ ".0"
  else if (-x) == Float.ofNat (-x).toUInt64.toNat then
    "-" ++ toString (-x).toUInt64.toNat ++ ".0"
  else
    toString x

mutual

/-- Compact JSON serialization of a value, as produced by
`serde_json::to_string` and by `Display for serde_json::Value`. -/
def jsonToString : Json → String
  | .null => "null"
  | .bool true => "true"
  | .bool false => "false"
  | .num n => serdeNumDisplay n
  | .str s => "\"" ++ escapeJsonString s ++ "\""
  | .arr xs => "[" ++ String.intercalate "," (jsonListToString xs) ++ "]"
  | .obj fs => lbrace ++ String.intercalate "," (jsonObjToString fs) ++ rbrace

/-- Serializes each element of a JSON array. -/
def jsonListToString : List Json → List String
  | [] => []
  | x :: xs => jsonToString x :: jsonListToString xs

/-- Serializes each `"key":value` entry of a JSON object. -/
def jsonObjToString : List (String × Json) → List String
  | [] => []
  | (k, v) :: fs =>
    ("\"" ++ escapeJsonString k ++ "\":" ++ jsonToString v) :: jsonObjToString fs

end

/-! ## query.rs: sort, changes and structured-query data -/

/-- Sort direction (`query.rs` lines 12-15). -/
inductive SortDir where
  | asc
  | desc
  deriving DecidableEq

/-- Embeds `impl fmt::Display for SortDir` (`query.rs` lines 17-24). -/
def SortDir.display : SortDir → String
  | .asc => "asc"
  | .desc => "desc"

/-- Sort specification (`query.rs` lines 28-32). -/
structure SortSpec where
  field : String
  direction : Option String
  deriving DecidableEq

/-- Changes subscription options (`query.rs` lines 36-39). -/
structure ChangesSpec where
  include_initial : Bool
  deriving DecidableEq

/-- Structured query object sent over the wire (`query.rs` lines 43-55).
The Rust `HashMap<String, serde_json::Value>` filter is modelled as an
association list; `Filter::to_structured` only ever inserts a single key
into a fresh map, so ordering is immaterial. -/
structure StructuredQuery where
  table : String
  filter : Option (List (String × Json))
  sort : Option (List SortSpec)
  limit : Option Nat
  skip : Option Nat
  changes : Option ChangesSpec

/-! ## query.rs: Filter -/

/-- Filter condition for queries (`query.rs` lines 59-75).  Rust variant
names that are Lean keywords are renamed (`In` to `isIn`, `Exists` to
`existsField`). -/
inductive Filter where
  | eq (field : String) (value : Json)
  | ne (field : String) (value : Json)
  | gt (field : String) (value : Float)
  | gte (field : String) (value : Float)
  | lt (field : String) (value : Float)
  | lte (field : String) (value : Float)
  | isIn (field : String) (values : List Json)
  | notIn (field : String) (values : List Json)
  | contains (field : String) (value : String)
  | startsWith (field : String) (value : String)
  | endsWith (field : String) (value : String)
  | existsField (field : String) (value : Bool)
  | and (conditions : List Filter)
  | or (conditions : List Filter)
  | not (condition : Filter)

mutual

/-- Embeds `Filter::compile` (`query.rs` lines 78-122): renders the filter
as a JavaScript predicate over `doc`. -/
def Filter.compile : Filter → String
  | .eq field value => "doc." ++ field ++ " === " ++ jsonToString value
  | .ne field value => "doc." ++ field ++ " !== " ++ jsonToString value
  | .gt field value => "doc." ++ field ++ " > " ++ f64Display value
  | .gte field value => "doc." ++ field ++ " >= " ++ f64Display value
  | .lt field value => "doc." ++ field ++ " < " ++ f64Display value
  | .lte field value => "doc." ++ field ++ " <= " ++ f64Display value
  | .isIn field values => jsonToString (.arr values) ++ ".includes(doc." ++ field ++ ")"
  | .notIn field values => "!" ++ jsonToString (.arr values) ++ ".includes(doc." ++ field ++ ")"
  | .contains field value => "doc." ++ field ++ ".includes(" ++ jsonToString (.str value) ++ ")"
  | .startsWith field value => "doc." ++ field ++ ".startsWith(" ++ jsonToString (.str value) ++ ")"
  | .endsWith field value => "doc." ++ field ++ ".endsWith(" ++ jsonToString (.str value) ++ ")"
  | .existsField field value =>
    if value then "doc." ++ field ++ " !== undefined"
    else "doc." ++ field ++ " === undefined"
  | .and conditions => "(" ++ String.intercalate " && " (Filter.compileList conditions) ++ ")"
  | .or conditions => "(" ++ String.intercalate " || " (Filter.compileList conditions) ++ ")"
  | .not condition => "!(" ++ condition.compile ++ ")"

/-- Compiles each member of a conjunction or disjunction, mirroring the
`conditions.iter().map(|c| c.compile()).collect()` in the source. -/
def Filter.compileList : List Filter → List String
  | [] => []
  | c :: cs => c.compile :: Filter.compileList cs

end

mutual

/-- Embeds `Filter::to_structured` (`query.rs` lines 125-186): every match
arm inserts exactly one key into a fresh map, so the result is a one-entry
association list; nested filters are embedded as JSON objects via
`serde_json::to_value`. -/
def Filter.toStructured : Filter → List (String × Json)
  | .eq field value => [(field, Json.obj [("$eq", value)])]
  | .ne field value => [(field, Json.obj [("$ne", value)])]
  | .gt field value => [(field, Json.obj [("$gt", Json.num value)])]
  | .gte field value => [(field, Json.obj [("$gte", Json.num value)])]
  | .lt field value => [(field, Json.obj [("$lt", Json.num value)])]
  | .lte field value => [(field, Json.obj [("$lte", Json.num value)])]
  | .isIn field values => [(field, Json.obj [("$in", Json.arr values)])]
  | .notIn field values => [(field, Json.obj [("$nin", Json.arr values)])]
  | .contains field value => [(field, Json.obj [("$contains", Json.str value)])]
  | .startsWith field value => [(field, Json.obj [("$startsWith", Json.str value)])]
  | .endsWith field value => [(field, Json.obj [("$endsWith", Json.str value)])]
  | .existsField field value => [(field, Json.obj [("$exists", Json.bool value)])]
  | .and conditions => [("$and", Json.arr (Filter.toStructuredList conditions))]
  | .or conditions => [("$or", Json.arr (Filter.toStructuredList conditions))]
  | .not condition => [("$not", Json.obj condition.toStructured)]

/-- Converts each member of a conjunction or disjunction to its structured
JSON object, mirroring the `map`/`collect` in the source. -/
def Filter.toStructuredList : List Filter → List Json
  | [] => []
  | c :: cs => Json.obj c.toStructured :: Filter.toStructuredList cs

end

/-! ## query.rs: QueryBuilder -/

/-- Query builder state (`query.rs` lines 282-289). -/
structure QueryBuilder where
  table_name : String
  filter : Option Filter
  sort_specs : List SortSpec
  limit_value : Option Nat
  skip_value : Option Nat
  is_changes : Bool

/-- Embeds `QueryBuilder::table` (`query.rs` lines 293-302). -/
def QueryBuilder.table (name : String) : QueryBuilder :=
  { table_name := name
    filter := none
    sort_specs := []
    limit_value := none
    skip_value := none
    is_changes := false }

/-- Embeds `QueryBuilder::find` (`query.rs` lines 305-308): sets the filter,
overwriting any previous one. -/
def QueryBuilder.find (self : QueryBuilder) (filter : Filter) : QueryBuilder :=
  { self with filter := some filter }

/-- Embeds `QueryBuilder::sort` (`query.rs` lines 311-317): appends one sort
specification. -/
def QueryBuilder.sort (self : QueryBuilder) (field : String) (direction : SortDir) :
    QueryBuilder :=
  { self with sort_specs := self.sort_specs ++ [⟨field, some direction.display⟩] }

/-- Embeds `QueryBuilder::limit` (`query.rs` lines 320-323). -/
def QueryBuilder.limit (self : QueryBuilder) (n : Nat) : QueryBuilder :=
  { self with limit_value := some n }

/-- Embeds `QueryBuilder::skip` (`query.rs` lines 326-329). -/
def QueryBuilder.skip (self : QueryBuilder) (n : Nat) : QueryBuilder :=
  { self with skip_value := some n }

/-- Embeds `QueryBuilder::changes` (`query.rs` lines 332-335). -/
def QueryBuilder.changes (self : QueryBuilder) : QueryBuilder :=
  { self with is_changes := true }

/-- Embeds `QueryBuilder::compile` (`query.rs` lines 338-371): renders the
legacy JavaScript query string. -/
def QueryBuilder.compile (self : QueryBuilder) : String :=
  let query := "db.table(\"" ++ self.table_name ++ "\")"
  let query := match self.filter with
    | some filter => query ++ ".filter(doc => " ++ filter.compile ++ ")"
    | none => query
  let query := self.sort_specs.foldl (fun q spec =>
    match spec.direction with
    | some "desc" => q ++ ".orderBy(\"" ++ spec.field ++ "\", \"desc\")"
    | _ => q ++ ".orderBy(\"" ++ spec.field ++ "\")") query
  let query := match self.limit_value with
    | some limit => query ++ ".limit(" ++ toString limit ++ ")"
    | none => query
  let query := match self.skip_value with
    | some skip => query ++ ".skip(" ++ toString skip ++ ")"
    | none => query
  if self.is_changes then query ++ ".changes()" else query ++ ".run()"

/-- Embeds `QueryBuilder::compile_structured` (`query.rs` lines 374-407). -/
def QueryBuilder.compileStructured (self : QueryBuilder) : StructuredQuery :=
  let filter := self.filter.map Filter.toStructured
  let sort := if self.sort_specs.isEmpty then none
    else some (self.sort_specs.map fun s => (⟨s.field, s.direction⟩ : SortSpec))
  let changes := if self.is_changes then some (⟨false⟩ : ChangesSpec) else none
  { table := self.table_name
    filter := filter
    sort := sort
    limit := self.limit_value
    skip := self.skip_value
    changes := changes }

/-! ## Theorems -/

/-- Helper: rebuilding each `SortSpec` from its two fields is the identity,
so `compile_structured`'s clone of the sort list returns the list itself. -/
theorem sortSpec_map_eta (l : List SortSpec) :
    l.map (fun s => (⟨s.field, s.direction⟩ : SortSpec)) = l := by
  induction l with
  | nil => rfl
  | cons h tl ih => cases h; simp [ih]

/-- C1 counterexample: the public error type of `error.rs` has no variant
named `Protocol` — no `Error` value has kind name "Protocol". -/
theorem error_has_no_protocol_kind : ¬ ∃ e : Error, e.kindName = "Protocol" := by
  rintro ⟨e, h⟩
  cases e <;> simp [Error.kindName] at h

/-- C1 (amended): the public error type's kinds are exactly Connection,
Handshake, VersionMismatch, AuthFailed, Io, Serialization, Server, Timeout
and ChannelClosed — an Io kind stands where the spec names a Protocol kind,
and no distinct Protocol kind exists. -/
theorem error_kind_taxonomy :
    (∀ e : Error, e.kindName ∈ errorKindNames) ∧
    (Error.connection "refused").kindName = "Connection" ∧
    (Error.handshake "bad magic").kindName = "Handshake" ∧
    (Error.versionMismatch 2 1).kindName = "VersionMismatch" ∧
    Error.authFailed.kindName = "AuthFailed" ∧
    (Error.io ⟨"broken pipe"⟩).kindName = "Io" ∧
    (Error.serialization "bad payload").kindName = "Serialization" ∧
    (Error.server "not found").kindName = "Server" ∧
    Error.timeout.kindName = "Timeout" ∧
    Error.channelClosed.kindName = "ChannelClosed" ∧
    "Protocol" ∉ errorKindNames := by
  refine ⟨fun e => ?_, rfl, rfl, rfl, rfl, rfl, rfl, rfl, rfl, rfl, by decide⟩
  cases e <;> simp [Error.kindName, errorKindNames]

/-- C2: a frame whose declared 4-byte big-endian length exceeds
`MAX_MESSAGE_SIZE` is rejected with a Protocol error; the result is the same
for every payload suffix `rest`, so no declared payload byte is read. -/
theorem readFrame_oversized_rejected (b0 b1 b2 b3 : Nat) (rest : List Nat)
    (h : MAX_MESSAGE_SIZE < ((b0 * 256 + b1) * 256 + b2) * 256 + b3) :
    readFrame (b0 :: b1 :: b2 :: b3 :: rest) =
      Except.error (FrameError.protocol "frame too large") := by
  simp only [readFrame]
  rw [if_pos h]

/-- C2 witness: the length 0x01000001 = 16777217 exceeds the 16 MiB bound,
and the four header bytes alone are rejected. -/
theorem readFrame_oversized_rejected_witness :
    MAX_MESSAGE_SIZE < ((1 * 256 + 0) * 256 + 0) * 256 + 1 ∧
    readFrame [1, 0, 0, 1] = Except.error (FrameError.protocol "frame too large") :=
  ⟨by decide, readFrame_oversized_rejected 1 0 0 1 [] (by decide)⟩

set_option maxRecDepth 4096 in
/-- C3: handshake status decoding maps 0x00 to Success, 0x01 to
VersionMismatch, 0x02 to AuthFailed, each exactly, and fails on every other
byte value. -/
theorem handshakeStatus_tryFrom_spec :
    ∀ b : Fin 256,
      (HandshakeStatus.tryFrom b.val = some HandshakeStatus.success ↔ b.val = 0x00) ∧
      (HandshakeStatus.tryFrom b.val = some HandshakeStatus.versionMismatch ↔ b.val = 0x01) ∧
      (HandshakeStatus.tryFrom b.val = some HandshakeStatus.authFailed ↔ b.val = 0x02) ∧
      (HandshakeStatus.tryFrom b.val = none ↔ 0x02 < b.val) := by
  decide

/-- C4: every `ClientMessage` variant and every `ServerMessage` variant
carries an id, recovered by the total `id` projections; the reader loop
routes a `Change` message to the subscription keyed by its id, and every
other `ServerMessage` to the pending request keyed by its id. -/
theorem message_ids_and_dispatch :
    (∀ i q, (ClientMessage.query i q).id = i) ∧
    (∀ i q, (ClientMessage.subscribe i q).id = i) ∧
    (∀ i, (ClientMessage.unsubscribe i).id = i) ∧
    (∀ i c d, (ClientMessage.insert i c d).id = i) ∧
    (∀ i c did d, (ClientMessage.update i c did d).id = i) ∧
    (∀ i c did, (ClientMessage.delete i c did).id = i) ∧
    (∀ i, (ClientMessage.listCollections i).id = i) ∧
    (∀ i, (ClientMessage.ping i).id = i) ∧
    (∀ i d, (ServerMessage.result i d).id = i) ∧
    (∀ i ch, (ServerMessage.change i ch).id = i) ∧
    (∀ i, (ServerMessage.subscribed i).id = i) ∧
    (∀ i, (ServerMessage.unsubscribed i).id = i) ∧
    (∀ i e, (ServerMessage.error i e).id = i) ∧
    (∀ i, (ServerMessage.pong i).id = i) ∧
    (∀ i ch, dispatchTarget (ServerMessage.change i ch) = DispatchTarget.subscription i) ∧
    (∀ i d, dispatchTarget (ServerMessage.result i d) = DispatchTarget.pending i) ∧
    (∀ i, dispatchTarget (ServerMessage.subscribed i) = DispatchTarget.pending i) ∧
    (∀ i, dispatchTarget (ServerMessage.unsubscribed i) = DispatchTarget.pending i) ∧
    (∀ i e, dispatchTarget (ServerMessage.error i e) = DispatchTarget.pending i) ∧
    (∀ i, dispatchTarget (ServerMessage.pong i) = DispatchTarget.pending i) := by
  exact ⟨fun _ _ => rfl, fun _ _ => rfl, fun _ => rfl, fun _ _ _ => rfl,
    fun _ _ _ _ => rfl, fun _ _ _ => rfl, fun _ => rfl, fun _ => rfl,
    fun _ _ => rfl, fun _ _ => rfl, fun _ => rfl, fun _ => rfl,
    fun _ _ => rfl, fun _ => rfl, fun _ _ => rfl, fun _ _ => rfl,
    fun _ => rfl, fun _ => rfl, fun _ _ => rfl, fun _ => rfl⟩

/-- C5: in `ChangeEvent`, `update`'s `old` is a plain `Json` value (any
structured value, `Json.null` included, is accepted), while `update`'s
`new`, `insert`'s `new` and `delete`'s `old` are full `Document`s whose
five fields are exactly id, collection, data, created_at and updated_at. -/
theorem changeEvent_update_old_is_plain_value :
    (∀ (o : Json) (n : Document),
      (ChangeEvent.update o n).updateOld = some o ∧
      (ChangeEvent.update o n).updateNew = some n) ∧
    (∀ n : Document, (ChangeEvent.insert n).insertNew = some n) ∧
    (∀ o : Document, (ChangeEvent.delete o).deleteOld = some o) ∧
    (∀ n : Document, (ChangeEvent.update Json.null n).updateOld = some Json.null) ∧
    (∀ i c d ca ua,
      (Document.mk i c d ca ua).id = i ∧
      (Document.mk i c d ca ua).collection = c ∧
      (Document.mk i c d ca ua).data = d ∧
      (Document.mk i c d ca ua).created_at = ca ∧
      (Document.mk i c d ca ua).updated_at = ua) :=
  ⟨fun _ _ => ⟨rfl, rfl⟩, fun _ => rfl, fun _ => rfl, fun _ => rfl,
    fun _ _ _ _ _ => ⟨rfl, rfl, rfl, rfl, rfl⟩⟩

/-- C6: the flags byte carries primary-encoding (MessagePack) support in
bit0 and fallback (JSON) acceptance in bit1, and byte-encoding then decoding
any `ProtocolFlags` value is the identity. -/
theorem protocolFlags_roundtrip :
    ∀ f : ProtocolFlags,
      ProtocolFlags.fromByte f.toByte = f ∧
      f.toByte.testBit 0 = f.messagepack ∧
      f.toByte.testBit 1 = f.json_fallback := by
  intro f
  cases f with
  | mk m j => cases m <;> cases j <;> exact ⟨by decide, by decide, by decide⟩

/-- C7: `compile_structured` copies the table name; emits a filter exactly
when one was set; emits the sort list, in insertion order, exactly when it
is nonempty; copies limit and skip verbatim; and emits a changes spec
exactly when `changes()` was called. -/
theorem compileStructured_spec :
    ∀ b : QueryBuilder,
      b.compileStructured.table = b.table_name ∧
      b.compileStructured.filter = b.filter.map Filter.toStructured ∧
      (b.compileStructured.filter.isSome ↔ b.filter.isSome) ∧
      b.compileStructured.sort = (if b.sort_specs.isEmpty then none else some b.sort_specs) ∧
      (b.compileStructured.sort.isSome ↔ b.sort_specs ≠ []) ∧
      b.compileStructured.limit = b.limit_value ∧
      b.compileStructured.skip = b.skip_value ∧
      (b.compileStructured.changes.isSome ↔ b.is_changes = true) := by
  intro b
  obtain ⟨t, f, s, l, k, c⟩ := b
  refine ⟨rfl, rfl, ?_, ?_, ?_, rfl, rfl, ?_⟩
  · cases f <;> simp [QueryBuilder.compileStructured]
  · cases s <;> simp [QueryBuilder.compileStructured, sortSpec_map_eta]
  · cases s <;> simp [QueryBuilder.compileStructured]
  · cases c <;> simp [QueryBuilder.compileStructured]

/-- C8: a second `find` replaces the previously set filter: the builder
states, hence both compiled forms, coincide with those of a single `find`
of the second filter. -/
theorem find_replaces_previous_filter :
    ∀ (b : QueryBuilder) (f1 f2 : Filter),
      ((b.find f1).find f2).compile = (b.find f2).compile ∧
      ((b.find f1).find f2).compileStructured = (b.find f2).compileStructured ∧
      (b.find f1).find f2 = b.find f2 := by
  intro b f1 f2
  exact ⟨rfl, rfl, rfl⟩

set_option maxRecDepth 4096 in
/-- C9: decoding any byte into `ProtocolFlags` never fails, and re-encoding
yields the byte masked to its low two bits — the six high bits are silently
discarded. -/
theorem protocolFlags_byte_roundtrip_masks :
    ∀ b : Fin 256, (ProtocolFlags.fromByte b.val).toByte = b.val &&& 0x03 := by
  decide

/-- C10: after `changes()` the structured query's changes spec is present
with `include_initial = false`; for every builder state the changes spec is
either absent or `include_initial = false`, so no structured query can
request initial-snapshot delivery. -/
theorem compileStructured_changes_never_include_initial :
    ∀ b : QueryBuilder,
      b.changes.compileStructured.changes = some ⟨false⟩ ∧
      b.compileStructured.changes =
        (if b.is_changes then some (⟨false⟩ : ChangesSpec) else none) := by
  intro b
  exact ⟨rfl, rfl⟩

end SqrlDB
